import Mathlib

/-!
# Verification of the AI phone-assistant call turn engine

Shallow embedding of the call-handling core of the FastAPI AI assistant
backend: the Twilio TwiML emitter (`app/integrations/twilio_integration.py`),
the call service (`app/services/call_service.py`) and the call webhook
endpoints (`app/api/api_v1/endpoints/calls.py`).  Repository operations
(Supabase-backed call-log store) are modelled as pure functions over an
explicit list of call-log records; the completion provider is passed in as an
explicit fallible function.
-/

/-- A chat message as passed to the completion provider
(`{"role": ..., "content": ...}` dictionaries in the source). -/
structure Message where
  role : String
  content : String
deriving Repr, DecidableEq

/-- A call-log record (row of the `call_logs` table).  Fields the source reads
with `.get(key, default)` or truthiness-tests are modelled with the same
absent-value behaviour: `transcript` uses `""` for absent (the source defaults
`call_log.get("transcript", "")` and truth-tests `call_log.get("transcript")`,
and `""` is falsy exactly like absent). -/
structure CallLog where
  id : String
  call_sid : String
  agent_id : String
  organization_id : String
  from_number : String
  to_number : String
  status : String
  transcript : String
  duration : Nat
  recording_url : Option String
  summary : Option String
deriving Repr, DecidableEq

/-- An agent configuration record.  `greeting`, `goodbye` and `system_prompt`
are read in the source with `.get(key, default)`, so they are `Option` here
and the service applies the defaults used by the source. -/
structure AgentConfig where
  id : String
  organization_id : String
  greeting : Option String
  goodbye : Option String
  system_prompt : Option String
deriving Repr, DecidableEq

/-- Model of `CallLogRepository.get_by_call_sid`: Supabase select with
`filters={"call_sid": sid}`, returning the first match or `None`. -/
def get_by_call_sid (store : List CallLog) (sid : String) : Option CallLog :=
  store.find? (fun l => l.call_sid == sid)

/-- Model of `CallLogRepository.update`: Supabase partial update of the row(s) with the
given `id`, applying the update dictionary `f` to the matching record. -/
def updateLog (store : List CallLog) (logId : String) (f : CallLog → CallLog) :
    List CallLog :=
  store.map (fun l => if l.id == logId then f l else l)

/-- Python truthiness of an optional string (`if not x` on
`call_data.get(key)`): `None` and `""` are falsy. -/
def truthyOpt : Option String → Bool
  | none => false
  | some s => s ≠ ""

/- ## XML text escaping (the Twilio TwiML serializer)

The `twilio.twiml` classes `VoiceResponse` and `Say` serialize through
`xml.etree.ElementTree`, whose character-data escaping replaces `&` with
`&amp;`, `<` with `&lt;` and `>` with `&gt;` in text content.  The model below
reproduces that escaping; an XML parser reading the rendered markup undoes it
(`unescapeList`). -/

/-- Escaping of one character of XML character data. -/
def escapeChar (c : Char) : List Char :=
  if c = '&' then ['&', 'a', 'm', 'p', ';']
  else if c = '<' then ['&', 'l', 't', ';']
  else if c = '>' then ['&', 'g', 't', ';']
  else [c]

/-- Escaping of XML character data, character by character. -/
def escapeList : List Char → List Char
  | [] => []
  | c :: r => escapeChar c ++ escapeList r

/-- Escaping of a text payload placed inside an XML element. -/
def xmlEscape (s : String) : String := ⟨escapeList s.data⟩

/-- What an XML parser does to character data: entity references
`&amp;` / `&lt;` / `&gt;` are decoded, everything else is kept. -/
def unescapeList : List Char → List Char
  | [] => []
  | c :: rest =>
    if c = '&' then
      if rest.take 4 = ['a', 'm', 'p', ';'] then '&' :: unescapeList (rest.drop 4)
      else if rest.take 3 = ['l', 't', ';'] then '<' :: unescapeList (rest.drop 3)
      else if rest.take 3 = ['g', 't', ';'] then '>' :: unescapeList (rest.drop 3)
      else '&' :: unescapeList rest
    else c :: unescapeList rest
  termination_by l => l.length
  decreasing_by
    · simp [List.length_drop]; omega
    · simp [List.length_drop]; omega
    · simp [List.length_drop]; omega
    · simp
    · simp

/-- Decoding of a rendered text payload, as a `String`. -/
def xmlUnescape (s : String) : String := ⟨unescapeList s.data⟩

/- ## The TwiML emitter (`app/integrations/twilio_integration.py`) -/

/-- One verb inside a `<Response>`: the three TwiML shapes the integration
emits. -/
inductive TwiMLNode where
  | say (text : String)
  | gather (timeout : Nat) (action : String)
  | hangup
deriving Repr, DecidableEq

/-- Serialization of one verb, as `twilio.twiml` renders it (text content
XML-escaped, `Gather` attributes as in the source). -/
def renderNode : TwiMLNode → String
  | .say t => "<Say>" ++ xmlEscape t ++ "</Say>"
  | .gather timeout action =>
      "<Gather input=\"speech\" action=\"" ++ action ++ "\" timeout=\""
        ++ toString timeout ++ "\" speechTimeout=\"auto\" enhanced=\"true\" />"
  | .hangup => "<Hangup />"

/-- Serialization of a whole `VoiceResponse` (`str(response)`), XML
declaration included. -/
def renderResponse (nodes : List TwiMLNode) : String :=
  "<?xml version=\"1.0\" encoding=\"UTF-8\"?><Response>"
    ++ String.join (nodes.map renderNode) ++ "</Response>"

/-- Model of `TwilioIntegration.create_initial_twiml`: says the greeting when truthy.
The source constructs a `Gather(input=speech, action=/api/v1/calls/transcribe,
timeout=5, speechTimeout=auto, enhanced=True)` but never appends it to the
response, so the rendered markup contains no `<Gather>` element. -/
def create_initial_twiml (greeting : String) : String :=
  renderResponse (if greeting ≠ "" then [.say greeting] else [])

/-- Model of `TwilioIntegration.create_twiml_response`: says the text and, when
`gather` is set, appends a speech `Gather` with timeout 2 aimed at the
transcription endpoint. -/
def create_twiml_response (text_to_say : String) (gather : Bool) : String :=
  renderResponse ([.say text_to_say] ++
    if gather then [.gather 2 "/api/v1/calls/transcribe"] else [])

/-- Model of `TwilioIntegration.create_goodbye_twiml`: says the goodbye message and
hangs up. -/
def create_goodbye_twiml (goodbye_message : String) : String :=
  renderResponse [.say goodbye_message, .hangup]

/- ## Lowercasing and the hang-up trigger check -/

/-- Model of `str.lower()`: character-wise lowercasing of the text. -/
def lowerStr (s : String) : String := ⟨s.data.map Char.toLower⟩

/-- Substring containment on character lists (the Python operator `needle in hay`). -/
def listContainsSub (needle : List Char) : List Char → Bool
  | [] => needle.isEmpty
  | c :: t => needle.isPrefixOf (c :: t) || listContainsSub needle t

/-- The Python containment operator `needle in hay` on strings. -/
def strContains (hay needle : String) : Bool := listContainsSub needle.data hay.data

/-- The hang-up classification of `process_speech`:
`any(word in transcript.lower() for word in ["goodbye", "bye", "end call", "hang up"])`. -/
def hasEndCallTrigger (text : String) : Bool :=
  ["goodbye", "bye", "end call", "hang up"].any
    (fun word => strContains (lowerStr text) word)

/- ## The completion provider (`app/integrations/openai_integration.py`) -/

/-- The message list `OpenAIIntegration.generate_response` sends to the chat
model: the system prompt, when truthy, is prepended as a leading `system`
message. -/
def generate_response_messages (messages : List Message) (system_prompt : String) :
    List Message :=
  if system_prompt ≠ "" then ⟨"system", system_prompt⟩ :: messages else messages

/- ## The call service (`app/services/call_service.py`) -/

/-- Result of one `process_speech` turn: the returned TwiML, the call-log
store after the updates of the turn, and the message list sent to the completion
provider (`none` when the provider was never invoked). -/
structure SpeechResult where
  twiml : String
  store : List CallLog
  providerInput : Option (List Message)
deriving Repr, DecidableEq

/-- Model of `CallService.process_speech`.  `getAgent` stands for
`AgentConfigRepository.get_by_id`; `complete` stands for the outcome of
`OpenAIIntegration.generate_response` on the given messages (`Except.error`
when the provider raises — timeout, rate limit, any error — which the
enclosing `except` clause in the source turns into the fixed fallback re-prompt). -/
def process_speech (store : List CallLog) (call_sid : String)
    (getAgent : String → Option AgentConfig)
    (complete : List Message → Except Unit String)
    (transcript : String) : SpeechResult :=
  match get_by_call_sid store call_sid with
  | none =>
      ⟨create_goodbye_twiml "I\x27m sorry, there was an error. Goodbye.", store, none⟩
  | some call_log =>
    match getAgent call_log.agent_id with
    | none =>
        ⟨create_goodbye_twiml "I\x27m sorry, there was an error. Goodbye.", store, none⟩
    | some agent_config =>
      let updated_transcript :=
        if call_log.transcript ≠ "" then
          call_log.transcript ++ "\nCaller: " ++ transcript
        else
          "Caller: " ++ transcript
      let store1 := updateLog store call_log.id
        (fun l => { l with transcript := updated_transcript })
      if hasEndCallTrigger transcript then
        let goodbye_message := agent_config.goodbye.getD "Thank you for calling. Goodbye!"
        let final_transcript := updated_transcript ++ "\nAI: " ++ goodbye_message
        let store2 := updateLog store1 call_log.id
          (fun l => { l with transcript := final_transcript, status := "completed" })
        ⟨create_goodbye_twiml goodbye_message, store2, none⟩
      else
        let system_prompt := agent_config.system_prompt.getD
          "You are a helpful AI assistant answering a phone call."
        let messages := generate_response_messages [⟨"user", transcript⟩] system_prompt
        match complete messages with
        | .ok ai_response =>
            let final_transcript := updated_transcript ++ "\nAI: " ++ ai_response
            let store2 := updateLog store1 call_log.id
              (fun l => { l with transcript := final_transcript })
            ⟨create_twiml_response ai_response true, store2, some messages⟩
        | .error _ =>
            ⟨create_twiml_response
              "I\x27m sorry, I\x27m having trouble understanding. Could you please repeat that?"
              true, store1, some messages⟩

/-- Model of `CallService.handle_incoming_call`: creates the initial call log (id
assigned by the store, passed in as `newId`) with status `in-progress` and
returns the initial greeting TwiML. -/
def handle_incoming_call (store : List CallLog) (call_sid from_number to_number : String)
    (agent_config : AgentConfig) (newId : String) : String × List CallLog :=
  let greeting := agent_config.greeting.getD
    "Hello, this is an AI assistant. How may I help you today?"
  let newLog : CallLog :=
    { id := newId, call_sid := call_sid, agent_id := agent_config.id,
      organization_id := agent_config.organization_id,
      from_number := from_number, to_number := to_number,
      status := "in-progress", transcript := "", duration := 0,
      recording_url := none, summary := none }
  (create_initial_twiml greeting, store ++ [newLog])

/-- Result of `handle_call_status_update`: the returned boolean and the
call-log store after the update. -/
structure StatusUpdateResult where
  success : Bool
  store : List CallLog
deriving Repr, DecidableEq

/-- Model of `CallService.handle_call_status_update`.  `recording` stands for
`TwilioIntegration.get_call_recording` (already returns `None` on its own
errors); `analyze` stands for the outcome of
`OpenAIIntegration.analyze_conversation` — `.ok (some s)` when the analysis
yields a summary field `s`, `.ok none` when it yields none, `.error` when it
raises (swallowed by the inner `except` of the source). -/
def handle_call_status_update (store : List CallLog) (call_sid status : String)
    (duration : Option Nat)
    (recording : String → Option String)
    (analyze : String → Except Unit (Option String)) : StatusUpdateResult :=
  match get_by_call_sid store call_sid with
  | none => ⟨false, store⟩
  | some call_log =>
    let isTerminal := status ∈ ["completed", "failed", "busy", "no-answer"]
    let durationVal := duration.getD 0
    let recording_url :=
      if status = "completed" then recording call_sid else none
    let summary :=
      if status = "completed" ∧ call_log.transcript ≠ "" then
        match analyze call_log.transcript with
        | .ok s => s
        | .error _ => none
      else none
    let store2 := updateLog store call_log.id (fun l =>
      { l with
        status := status,
        duration := if isTerminal then durationVal else l.duration,
        recording_url := match recording_url with
          | some u => some u
          | none => l.recording_url,
        summary := match summary with
          | some s => some s
          | none => l.summary })
    ⟨true, store2⟩

/- ## The webhook endpoints (`app/api/api_v1/endpoints/calls.py`) -/

/-- What an endpoint hands back to the telephony provider: either a rendered
TwiML body or an HTTP error response (a raised `HTTPException`). -/
inductive WebhookResult where
  | xml (body : String)
  | httpError (statusCode : Nat) (detail : String)
deriving Repr, DecidableEq

/-- The `/webhook` endpoint (`call_webhook`): reads the `To` number from the
form data, resolves the agent bound to it (`resolve` stands for
`AgentConfigRepository.get_by_phone_number`), and on success delegates to
`handle_incoming_call`.  A missing `To` raises HTTP 400; an unresolved agent
raises HTTP 404. -/
def call_webhook (store : List CallLog) (to_number : Option String)
    (call_sid from_number : String)
    (resolve : String → Option AgentConfig) (newId : String) :
    WebhookResult × List CallLog :=
  match to_number with
  | none => (.httpError 400 "Missing To number", store)
  | some toNum =>
    match resolve toNum with
    | none => (.httpError 404 "Agent not found", store)
    | some agent_config =>
      let r := handle_incoming_call store call_sid from_number toNum agent_config newId
      (.xml r.1, r.2)

/-- The fixed re-prompt TwiML the `/transcribe` endpoint returns verbatim when
no speech was recognized (hand-written string in the source, no XML
declaration). -/
def noSpeechTwiml : String :=
  "<Response><Say>I didn\x27t hear anything. Please try again.</Say><Gather input=\"speech\" action=\"/api/v1/calls/transcribe\" timeout=\"5\" speechTimeout=\"auto\" enhanced=\"true\"/></Response>"

/-- The `/transcribe` endpoint (`transcribe_speech`): reads `SpeechResult`
from the form data; when it is absent or empty (falsy) it returns the fixed
re-prompt without touching the store or the provider, otherwise it delegates
to `process_speech`. -/
def transcribe_speech (store : List CallLog) (speech_result : Option String)
    (call_sid : String) (getAgent : String → Option AgentConfig)
    (complete : List Message → Except Unit String) : SpeechResult :=
  if truthyOpt speech_result then
    process_speech store call_sid getAgent complete (speech_result.getD "")
  else
    ⟨noSpeechTwiml, store, none⟩

/-- The `/status` endpoint (`call_status`): runs the status update and always
returns an empty success body to the provider, whatever
`handle_call_status_update` reported. -/
def call_status (store : List CallLog) (call_sid status : String)
    (duration : Option Nat) (recording : String → Option String)
    (analyze : String → Except Unit (Option String)) : Bool × List CallLog :=
  let r := handle_call_status_update store call_sid status duration recording analyze
  (true, r.store)

/- ## Helper predicates used in theorem statements -/

/-- A character is neither an opening nor a closing angle bracket, so it can
neither close the current element nor start a new one. -/
def notAngle (c : Char) : Bool := !(c == '<') && !(c == '>')

/-- A record either is not the targeted row or carries the given status. -/
def statusSetTo (logId status : String) (l : CallLog) : Bool :=
  l.id != logId || l.status == status

/- ## General lemmas about the embedding -/

/-- Two successive partial updates of the same row compose, provided the first
update leaves the row id unchanged. -/
theorem updateLog_updateLog (store : List CallLog) (logId : String)
    (f g : CallLog → CallLog) (hf : ∀ l, (f l).id = l.id) :
    updateLog (updateLog store logId f) logId g =
      updateLog store logId (fun l => g (f l)) := by
  simp only [updateLog, List.map_map]
  apply List.map_congr_left
  intro l _
  by_cases h : l.id = logId <;> simp [Function.comp, h, hf l]

/-- Decoding inverts encoding: an XML parser recovers exactly the original
character data from the escaped form. -/
theorem unescape_escape (l : List Char) : unescapeList (escapeList l) = l := by
  induction l with
  | nil => simp [escapeList, unescapeList]
  | cons c t ih =>
    by_cases h1 : c = '&'
    · subst h1; simp [escapeList, escapeChar, unescapeList, ih]
    · by_cases h2 : c = '<'
      · subst h2; simp [escapeList, escapeChar, unescapeList, ih]
      · by_cases h3 : c = '>'
        · subst h3; simp [escapeList, escapeChar, unescapeList, ih]
        · simp [escapeList, escapeChar, h1, h2, h3, unescapeList, ih]

/-- Escaped character data never contains an angle bracket, so it cannot close
the enclosing element or open a foreign one. -/
theorem escape_no_angle (l : List Char) :
    ∀ c ∈ escapeList l, c ≠ '<' ∧ c ≠ '>' := by
  induction l with
  | nil => simp [escapeList]
  | cons c t ih =>
    intro x hx
    simp only [escapeList, List.mem_append] at hx
    rcases hx with hx | hx
    · by_cases h1 : c = '&'
      · subst h1; simp [escapeChar] at hx
        rcases hx with rfl | rfl | rfl | rfl | rfl <;> decide
      · by_cases h2 : c = '<'
        · subst h2; simp [escapeChar] at hx
          rcases hx with rfl | rfl | rfl | rfl <;> decide
        · by_cases h3 : c = '>'
          · subst h3; simp [escapeChar] at hx
            rcases hx with rfl | rfl | rfl | rfl <;> decide
          · simp [escapeChar, h1, h2, h3] at hx; subst hx; exact ⟨h2, h3⟩
    · exact ih x hx

/-- Escaped character data contains no opening angle bracket at all. -/
theorem escapeList_count_lt (l : List Char) : (escapeList l).count '<' = 0 := by
  rw [List.count_eq_zero]
  intro h
  exact (escape_no_angle l '<' h).1 rfl

/-- Containing the trigger term `hang up` (as a substring of the lowercased
text) makes the hang-up classification fire. -/
theorem trigger_of_contains_hangup (text : String)
    (h : strContains (lowerStr text) "hang up" = true) :
    hasEndCallTrigger text = true := by
  simp [hasEndCallTrigger, h]

/-- The hang-up branch of `process_speech`, in closed form: when the call log
and the agent resolve and the text contains a trigger term, the turn appends
the caller utterance and the configured goodbye, marks the log completed, and
answers with the goodbye-and-hangup TwiML without invoking the completion
provider. -/
theorem process_speech_trigger_eq (store : List CallLog) (call_sid : String)
    (getAgent : String → Option AgentConfig)
    (complete : List Message → Except Unit String) (text : String)
    (log : CallLog) (agent : AgentConfig)
    (h1 : get_by_call_sid store call_sid = some log)
    (h2 : getAgent log.agent_id = some agent)
    (htrig : hasEndCallTrigger text = true) :
    process_speech store call_sid getAgent complete text =
      ⟨create_goodbye_twiml (agent.goodbye.getD "Thank you for calling. Goodbye!"),
       updateLog store log.id (fun l =>
         { l with
           transcript :=
             (if log.transcript ≠ "" then log.transcript ++ "\nCaller: " ++ text
              else "Caller: " ++ text) ++ "\nAI: "
               ++ agent.goodbye.getD "Thank you for calling. Goodbye!",
           status := "completed" }),
       none⟩ := by
  simp only [process_speech, h1, h2, htrig, if_true]
  rw [updateLog_updateLog]
  intro l
  rfl

/- ## Concrete fixtures for witnesses and counterexamples -/

/-- A concrete agent profile used by the concrete instances below. -/
def exAgent : AgentConfig :=
  { id := "ag1", organization_id := "org1",
    greeting := some "Hi, you have reached Acme.",
    goodbye := some "Thanks for calling Acme. Goodbye!",
    system_prompt := some "You are the Acme receptionist." }

/-- A concrete in-progress call log whose transcript already holds one caller
turn and one agent turn. -/
def exLog : CallLog :=
  { id := "log1", call_sid := "CA1", agent_id := "ag1",
    organization_id := "org1", from_number := "+15550001111",
    to_number := "+15550002222", status := "in-progress",
    transcript := "Caller: Hi\nAI: Hello there", duration := 0,
    recording_url := none, summary := none }

/-- A one-row call-log store holding `exLog`. -/
def exStore : List CallLog := [exLog]

/-- A concrete agent lookup resolving only `ag1`. -/
def exGetAgent : String → Option AgentConfig :=
  fun i => if i = "ag1" then some exAgent else none

/-- A completion provider that always answers. -/
def exCompleteOk : List Message → Except Unit String := fun _ => .ok "It is noon."

/-- A completion provider that always raises. -/
def exCompleteFail : List Message → Except Unit String := fun _ => .error ()

/-- A concrete call log that has already reached the terminal status
`completed`, with a recorded duration. -/
def c4Log : CallLog :=
  { id := "log4", call_sid := "CA4", agent_id := "ag1",
    organization_id := "org1", from_number := "+15550001111",
    to_number := "+15550002222", status := "completed",
    transcript := "Caller: Hi", duration := 12,
    recording_url := none, summary := none }

/- ## Claim C1 -/

/-- C1 counterexample: at a session whose running transcript already holds a
caller turn (`Caller: Hi`) and an agent turn (`AI: Hello there`),
`process_speech` invokes the completion provider with only the leading system
directive and a single user turn holding the latest recognized text — the
earlier turns of the running transcript (in particular the text `Hi`) are not
part of the provider input, so the provider is not given the full running
transcript framed as alternating role turns. -/
theorem process_speech_latest_utterance_only_cex :
    exLog.transcript = "Caller: Hi\nAI: Hello there"
    ∧ (process_speech exStore "CA1" exGetAgent exCompleteOk
        "What time is it").providerInput =
      some [{ role := "system", content := "You are the Acme receptionist." },
            { role := "user", content := "What time is it" }]
    ∧ strContains "What time is it" "Hi" = false := by
  refine ⟨rfl, rfl, rfl⟩

/-- C1 (amended): for every IN_PROGRESS call session and every non-empty
recognized text without a hang-up trigger, `process_speech` invokes the
completion provider with a single user turn holding only the latest
recognized text, preceded by the agent system prompt as a leading system
directive; on success it appends the provider result as an agent utterance to
the transcript and returns a speak-response-then-listen instruction. -/
theorem process_speech_completion_input_latest_only (store : List CallLog)
    (call_sid : String) (getAgent : String → Option AgentConfig)
    (complete : List Message → Except Unit String) (text resp : String)
    (log : CallLog) (agent : AgentConfig)
    (h1 : get_by_call_sid store call_sid = some log)
    (hst : log.status = "in-progress")
    (h2 : getAgent log.agent_id = some agent)
    (hne : text ≠ "")
    (htrig : hasEndCallTrigger text = false)
    (hok : complete (generate_response_messages [{ role := "user", content := text }]
      (agent.system_prompt.getD
        "You are a helpful AI assistant answering a phone call.")) = .ok resp) :
    process_speech store call_sid getAgent complete text =
      ⟨create_twiml_response resp true,
       updateLog store log.id (fun l =>
         { l with
           transcript :=
             (if log.transcript ≠ "" then log.transcript ++ "\nCaller: " ++ text
              else "Caller: " ++ text) ++ "\nAI: " ++ resp }),
       some (generate_response_messages [{ role := "user", content := text }]
         (agent.system_prompt.getD
           "You are a helpful AI assistant answering a phone call."))⟩ := by
  simp only [process_speech, h1, h2, htrig, hok, Bool.false_eq_true, if_false]
  rw [updateLog_updateLog]
  intro l
  rfl

/-- C1 witness: the amended statement evaluated at the concrete fixture
session and the always-answering provider. -/
theorem process_speech_completion_input_latest_only_witness :
    process_speech exStore "CA1" exGetAgent exCompleteOk "What time is it" =
      ⟨create_twiml_response "It is noon." true,
       [{ id := "log1", call_sid := "CA1", agent_id := "ag1",
          organization_id := "org1", from_number := "+15550001111",
          to_number := "+15550002222", status := "in-progress",
          transcript :=
            "Caller: Hi\nAI: Hello there\nCaller: What time is it\nAI: It is noon.",
          duration := 0, recording_url := none, summary := none }],
       some [{ role := "system", content := "You are the Acme receptionist." },
             { role := "user", content := "What time is it" }]⟩ :=
  process_speech_completion_input_latest_only exStore "CA1" exGetAgent exCompleteOk
    "What time is it" "It is noon." exLog exAgent rfl rfl rfl (by decide) rfl rfl

/- ## Claim C2 -/

/-- C2: for every IN_PROGRESS call session and every recognized text whose
lowercase form contains a term of `{goodbye, bye, end call, hang up}`,
`process_speech` never invokes the completion provider (the provider-input
record is `none` for every provider), appends the configured goodbye of the
agent as an agent utterance, marks the log status `completed`, and returns the
speak-goodbye-then-hangup TwiML. -/
theorem process_speech_hangup_trigger (store : List CallLog) (call_sid : String)
    (getAgent : String → Option AgentConfig)
    (complete : List Message → Except Unit String) (text : String)
    (log : CallLog) (agent : AgentConfig)
    (h1 : get_by_call_sid store call_sid = some log)
    (hst : log.status = "in-progress")
    (h2 : getAgent log.agent_id = some agent)
    (htrig : hasEndCallTrigger text = true) :
    process_speech store call_sid getAgent complete text =
      ⟨create_goodbye_twiml (agent.goodbye.getD "Thank you for calling. Goodbye!"),
       updateLog store log.id (fun l =>
         { l with
           transcript :=
             (if log.transcript ≠ "" then log.transcript ++ "\nCaller: " ++ text
              else "Caller: " ++ text) ++ "\nAI: "
               ++ agent.goodbye.getD "Thank you for calling. Goodbye!",
           status := "completed" }),
       none⟩ :=
  process_speech_trigger_eq store call_sid getAgent complete text log agent h1 h2 htrig

/-- C2 witness: an utterance containing `BYE` in upper case ends the fixture
call with the configured goodbye and without a provider record. -/
theorem process_speech_hangup_trigger_witness :
    process_speech exStore "CA1" exGetAgent exCompleteOk "BYE everyone" =
      ⟨create_goodbye_twiml "Thanks for calling Acme. Goodbye!",
       [{ id := "log1", call_sid := "CA1", agent_id := "ag1",
          organization_id := "org1", from_number := "+15550001111",
          to_number := "+15550002222", status := "completed",
          transcript :=
            "Caller: Hi\nAI: Hello there\nCaller: BYE everyone\nAI: Thanks for calling Acme. Goodbye!",
          duration := 0, recording_url := none, summary := none }],
       none⟩ :=
  process_speech_hangup_trigger exStore "CA1" exGetAgent exCompleteOk
    "BYE everyone" exLog exAgent rfl rfl rfl (by decide)

/- ## Claim C3 -/

/-- C3: for every IN_PROGRESS call session and non-empty recognized text
without a trigger term, when the completion provider fails, `process_speech`
still returns the fixed fallback re-prompt with listening re-armed (a
speak-then-gather TwiML, never an unhandled error), appends no agent
utterance, and the store already holds the caller utterance appended before
the completion call. -/
theorem process_speech_completion_failure_fallback (store : List CallLog)
    (call_sid : String) (getAgent : String → Option AgentConfig)
    (complete : List Message → Except Unit String) (text : String)
    (log : CallLog) (agent : AgentConfig)
    (h1 : get_by_call_sid store call_sid = some log)
    (hst : log.status = "in-progress")
    (h2 : getAgent log.agent_id = some agent)
    (hne : text ≠ "")
    (htrig : hasEndCallTrigger text = false)
    (hfail : complete (generate_response_messages [{ role := "user", content := text }]
      (agent.system_prompt.getD
        "You are a helpful AI assistant answering a phone call.")) = .error ()) :
    process_speech store call_sid getAgent complete text =
      ⟨create_twiml_response
        "I\x27m sorry, I\x27m having trouble understanding. Could you please repeat that?"
        true,
       updateLog store log.id (fun l =>
         { l with
           transcript :=
             if log.transcript ≠ "" then log.transcript ++ "\nCaller: " ++ text
             else "Caller: " ++ text }),
       some (generate_response_messages [{ role := "user", content := text }]
         (agent.system_prompt.getD
           "You are a helpful AI assistant answering a phone call."))⟩ := by
  simp only [process_speech, h1, h2, htrig, hfail, Bool.false_eq_true, if_false]

/-- C3 witness: the statement evaluated at the fixture session with the
always-raising provider — the transcript gains only the caller utterance and
the answer is the fixed fallback re-prompt. -/
theorem process_speech_completion_failure_fallback_witness :
    process_speech exStore "CA1" exGetAgent exCompleteFail "What time is it" =
      ⟨create_twiml_response
        "I\x27m sorry, I\x27m having trouble understanding. Could you please repeat that?"
        true,
       [{ id := "log1", call_sid := "CA1", agent_id := "ag1",
          organization_id := "org1", from_number := "+15550001111",
          to_number := "+15550002222", status := "in-progress",
          transcript := "Caller: Hi\nAI: Hello there\nCaller: What time is it",
          duration := 0, recording_url := none, summary := none }],
       some [{ role := "system", content := "You are the Acme receptionist." },
             { role := "user", content := "What time is it" }]⟩ :=
  process_speech_completion_failure_fallback exStore "CA1" exGetAgent exCompleteFail
    "What time is it" exLog exAgent rfl rfl rfl (by decide) rfl rfl

/- ## Claim C4 -/

/-- C4 counterexample: a status notification with status `failed` for a call
log that is already in the terminal status `completed` does not leave the
status unchanged — `handle_call_status_update` overwrites the stored status
(and the recorded duration) with the notified values. -/
theorem status_update_overwrites_terminal_cex :
    c4Log.status = "completed"
    ∧ (handle_call_status_update [c4Log] "CA4" "failed" none
        (fun _ => none) (fun _ => .error ())).store =
      [{ id := "log4", call_sid := "CA4", agent_id := "ag1",
         organization_id := "org1", from_number := "+15550001111",
         to_number := "+15550002222", status := "failed",
         transcript := "Caller: Hi", duration := 0,
         recording_url := none, summary := none }] := by
  refine ⟨rfl, rfl⟩

/-- C4 (amended): for every call session, a status notification processed by
`handle_call_status_update` unconditionally overwrites the stored status with
the notified status — also when the stored status is already terminal
(`completed`, `failed`, `busy` or `no-answer`); there is no forward-only
guard, and the operation reports success. -/
theorem status_update_always_sets_status (store : List CallLog)
    (call_sid status : String) (duration : Option Nat)
    (recording : String → Option String)
    (analyze : String → Except Unit (Option String)) (log : CallLog)
    (h1 : get_by_call_sid store call_sid = some log)
    (hterm : log.status ∈ ["completed", "failed", "busy", "no-answer"]) :
    (handle_call_status_update store call_sid status duration recording
        analyze).success = true
    ∧ (handle_call_status_update store call_sid status duration recording
        analyze).store.all (statusSetTo log.id status) = true := by
  simp only [handle_call_status_update, h1]
  refine ⟨trivial, ?_⟩
  rw [List.all_eq_true]
  intro l hl
  simp only [updateLog, List.mem_map] at hl
  obtain ⟨a, _, rfl⟩ := hl
  by_cases h : a.id = log.id <;> simp [statusSetTo, h]

/-- C4 witness: the amended statement evaluated at the already-completed
fixture log and a `busy` notification. -/
theorem status_update_always_sets_status_witness :
    (handle_call_status_update [c4Log] "CA4" "busy" (some 7)
        (fun _ => none) (fun _ => .error ())).success = true
    ∧ (handle_call_status_update [c4Log] "CA4" "busy" (some 7)
        (fun _ => none) (fun _ => .error ())).store.all
        (statusSetTo "log4" "busy") = true :=
  status_update_always_sets_status [c4Log] "CA4" "busy" (some 7)
    (fun _ => none) (fun _ => .error ()) c4Log rfl (by decide)

/- ## Claim C5 -/

/-- C5 (code bug): on an inbound call whose number resolves to an agent, the
call session is created with status `in-progress` and the returned TwiML
speaks the greeting of the agent, but — because the source constructs a
speech `Gather` (timeout 5, enhanced) and never appends it to the
`VoiceResponse` — the rendered instruction contains no `<Gather>` element at
all, so the next caller utterance is never requested. -/
theorem initial_twiml_missing_gather :
    handle_incoming_call [] "CA5" "+15550001111" "+15550002222" exAgent "log5" =
      (create_initial_twiml "Hi, you have reached Acme.",
       [{ id := "log5", call_sid := "CA5", agent_id := "ag1",
          organization_id := "org1", from_number := "+15550001111",
          to_number := "+15550002222", status := "in-progress",
          transcript := "", duration := 0,
          recording_url := none, summary := none }])
    ∧ create_initial_twiml "Hi, you have reached Acme." =
        "<?xml version=\"1.0\" encoding=\"UTF-8\"?><Response><Say>Hi, you have reached Acme.</Say></Response>"
    ∧ strContains (create_initial_twiml "Hi, you have reached Acme.") "<Gather"
        = false := by
  refine ⟨rfl, rfl, rfl⟩

/- ## Claim C6 -/

/-- C6: a status notification whose call identifier matches no stored call
log is acknowledged successfully at the `/status` endpoint (success response,
store unchanged); internally `handle_call_status_update` reports `false` and
performs no update, so no call log is created or changed anywhere. -/
theorem status_unknown_call_acknowledged_no_change (store : List CallLog)
    (call_sid status : String) (duration : Option Nat)
    (recording : String → Option String)
    (analyze : String → Except Unit (Option String))
    (h : get_by_call_sid store call_sid = none) :
    call_status store call_sid status duration recording analyze = (true, store)
    ∧ handle_call_status_update store call_sid status duration recording analyze
        = ⟨false, store⟩ := by
  refine ⟨?_, ?_⟩ <;> simp [call_status, handle_call_status_update, h]

/-- C6 witness: the statement evaluated at a store that has no log for the
notified call identifier. -/
theorem status_unknown_call_acknowledged_no_change_witness :
    call_status exStore "CA-unknown" "completed" (some 9)
        (fun _ => none) (fun _ => .ok (some "a summary")) = (true, exStore)
    ∧ handle_call_status_update exStore "CA-unknown" "completed" (some 9)
        (fun _ => none) (fun _ => .ok (some "a summary")) = ⟨false, exStore⟩ :=
  status_unknown_call_acknowledged_no_change exStore "CA-unknown" "completed"
    (some 9) (fun _ => none) (fun _ => .ok (some "a summary")) rfl

/- ## Claim C7 -/

/-- C7 counterexample: an inbound-call notification whose called number
resolves to no agent profile is answered by the `/webhook` endpoint with a
raised HTTP 404 error (detail `Agent not found`), not with a rendered
telephony instruction, and no call session is created. -/
theorem webhook_unknown_agent_cex :
    call_webhook [] (some "+15550009999") "CA7" "+15550001111"
        (fun _ => none) "log7" =
      (.httpError 404 "Agent not found", []) := by
  rfl

/-- C7 (amended): for every inbound-call notification whose called number
does not resolve to any agent profile, the `/webhook` endpoint responds with
a raw HTTP 404 error (`Agent not found`) to the telephony layer — not with a
no-agent-configured telephony instruction — and leaves the store unchanged. -/
theorem webhook_unknown_agent_http_404 (store : List CallLog)
    (toNum call_sid from_number newId : String)
    (resolve : String → Option AgentConfig)
    (h : resolve toNum = none) :
    call_webhook store (some toNum) call_sid from_number resolve newId =
      (.httpError 404 "Agent not found", store) := by
  simp [call_webhook, h]

/-- C7 witness: the amended statement evaluated at a resolver that knows no
phone number. -/
theorem webhook_unknown_agent_http_404_witness :
    call_webhook exStore (some "+15550007777") "CA7b" "+15550001111"
        (fun _ => none) "log7b" =
      (.httpError 404 "Agent not found", exStore) :=
  webhook_unknown_agent_http_404 exStore "+15550007777" "CA7b" "+15550001111"
    "log7b" (fun _ => none) rfl

/- ## Claim C8 -/

/-- C8: an utterance notification whose recognized-text field is absent or
empty makes the `/transcribe` endpoint return the fixed re-prompt TwiML,
leave the call-log store (and so every transcript) unchanged, and never
contact the completion provider. -/
theorem transcribe_empty_speech_reprompt (store : List CallLog)
    (speech_result : Option String) (call_sid : String)
    (getAgent : String → Option AgentConfig)
    (complete : List Message → Except Unit String)
    (h : truthyOpt speech_result = false) :
    transcribe_speech store speech_result call_sid getAgent complete =
      ⟨noSpeechTwiml, store, none⟩ := by
  simp [transcribe_speech, h]

/-- C8 witness: the statement evaluated at an empty recognized-text field on
the fixture store. -/
theorem transcribe_empty_speech_reprompt_witness :
    transcribe_speech exStore (some "") "CA1" exGetAgent exCompleteOk =
      ⟨noSpeechTwiml, exStore, none⟩ :=
  transcribe_empty_speech_reprompt exStore (some "") "CA1" exGetAgent
    exCompleteOk rfl

/- ## Claim C9 -/

/-- C9: for every text `T`, the speak-and-listen TwiML rendered by
`create_twiml_response` carries the XML-escaped form of `T` as the exact
payload of its `<Say>` element; decoding that payload (what an XML parser
does) yields the original `T`; the escaped payload contains no angle bracket
at all (so injected markup such as a literal `</Say>` is neutralized and can
neither close the spoken segment prematurely nor inject a foreign control
directive); and the rendered `<Say>` segment contains exactly the two opening
angle brackets of its own tags. -/
theorem twiml_say_escape_roundtrip (T : String) :
    create_twiml_response T true =
      renderResponse [.say T, .gather 2 "/api/v1/calls/transcribe"]
    ∧ renderNode (.say T) = "<Say>" ++ xmlEscape T ++ "</Say>"
    ∧ xmlUnescape (xmlEscape T) = T
    ∧ (xmlEscape T).data.all notAngle = true
    ∧ (renderNode (.say T)).data.count '<' = 2 := by
  refine ⟨rfl, rfl, ?_, ?_, ?_⟩
  · cases T with
    | mk d => simp [xmlUnescape, xmlEscape, unescape_escape]
  · rw [List.all_eq_true]
    intro c hc
    have h := escape_no_angle T.data c hc
    simp [notAngle, h.1, h.2]
  · show (("<Say>" ++ xmlEscape T ++ "</Say>").data).count '<' = 2
    simp [String.data_append, xmlEscape, List.count_append, escapeList_count_lt]

/-- C9 witness: the statement evaluated at a hostile payload that literally
contains `</Say><Hangup/>`. -/
theorem twiml_say_escape_roundtrip_witness :
    create_twiml_response "</Say><Hangup/>" true =
      renderResponse [.say "</Say><Hangup/>", .gather 2 "/api/v1/calls/transcribe"]
    ∧ renderNode (.say "</Say><Hangup/>") =
        "<Say>" ++ xmlEscape "</Say><Hangup/>" ++ "</Say>"
    ∧ xmlUnescape (xmlEscape "</Say><Hangup/>") = "</Say><Hangup/>"
    ∧ (xmlEscape "</Say><Hangup/>").data.all notAngle = true
    ∧ (renderNode (.say "</Say><Hangup/>")).data.count '<' = 2 :=
  twiml_say_escape_roundtrip "</Say><Hangup/>"

/- ## Claim C10 -/

/-- C10 counterexample: the lowercase form of `maybe` does not contain `bye`
(nor any other trigger term) as a substring — the letters `b`, `y`, `e` do
not occur contiguously in `maybe` — so `process_speech` does not end the call
on the utterance `maybe`: it consults the completion provider and answers
with a speak-then-listen instruction instead of a hangup. -/
theorem trigger_maybe_cex :
    strContains (lowerStr "maybe") "bye" = false
    ∧ hasEndCallTrigger "maybe" = false
    ∧ (process_speech exStore "CA1" exGetAgent exCompleteOk "maybe").providerInput =
        some [{ role := "system", content := "You are the Acme receptionist." },
              { role := "user", content := "maybe" }]
    ∧ (process_speech exStore "CA1" exGetAgent exCompleteOk "maybe").twiml =
        create_twiml_response "It is noon." true := by
  refine ⟨rfl, rfl, rfl, rfl⟩

/-- C10 (amended): the hang-up classification uses substring containment on
the lowercased text, so inputs that are not farewells but contain a trigger
term inside a larger phrase — e.g. `hang upside down`, whose lowercase form
contains `hang up` — end the call: `process_speech` returns the hangup
instruction and marks the session completed without consulting the
completion provider. -/
theorem process_speech_substring_trigger_hangup (store : List CallLog)
    (call_sid : String) (getAgent : String → Option AgentConfig)
    (complete : List Message → Except Unit String) (text : String)
    (log : CallLog) (agent : AgentConfig)
    (h1 : get_by_call_sid store call_sid = some log)
    (hst : log.status = "in-progress")
    (h2 : getAgent log.agent_id = some agent)
    (hsub : strContains (lowerStr text) "hang up" = true) :
    process_speech store call_sid getAgent complete text =
      ⟨create_goodbye_twiml (agent.goodbye.getD "Thank you for calling. Goodbye!"),
       updateLog store log.id (fun l =>
         { l with
           transcript :=
             (if log.transcript ≠ "" then log.transcript ++ "\nCaller: " ++ text
              else "Caller: " ++ text) ++ "\nAI: "
               ++ agent.goodbye.getD "Thank you for calling. Goodbye!",
           status := "completed" }),
       none⟩ :=
  process_speech_trigger_eq store call_sid getAgent complete text log agent h1 h2
    (trigger_of_contains_hangup text hsub)

/-- C10 witness: the utterance `I like to hang upside down`, which is no
farewell, ends the fixture call without consulting the provider. -/
theorem process_speech_substring_trigger_hangup_witness :
    process_speech exStore "CA1" exGetAgent exCompleteOk
        "I like to hang upside down" =
      ⟨create_goodbye_twiml "Thanks for calling Acme. Goodbye!",
       [{ id := "log1", call_sid := "CA1", agent_id := "ag1",
          organization_id := "org1", from_number := "+15550001111",
          to_number := "+15550002222", status := "completed",
          transcript :=
            "Caller: Hi\nAI: Hello there\nCaller: I like to hang upside down\nAI: Thanks for calling Acme. Goodbye!",
          duration := 0, recording_url := none, summary := none }],
       none⟩ :=
  process_speech_substring_trigger_hangup exStore "CA1" exGetAgent exCompleteOk
    "I like to hang upside down" exLog exAgent rfl rfl rfl (by decide)
